import Mathlib

/-!
Verification of the multi-tenant Mixpanel API adapter.

This file is a shallow embedding of the repository's credential resolver
(`parseTenantCredentials` / `validateCredentials`, from the environment
bindings module) and of the API client (`src/client.ts`): base-URL
selection, Basic-auth header construction, request construction for the
operations the claims mention, HTTP-response classification, and the
lookup-table CSV serializer.  JavaScript-specific behaviours (falsy
coercions `x || ''`, template-literal rendering of `undefined`,
`parseInt` returning `NaN`, object-spread key override) are modelled
explicitly.  Each operation is embedded as a pure function from
credentials and parameters to `Except MixpanelError RequestDescriptor`:
an `Except.ok` value is the single outbound HTTP request the operation
would issue, and an `Except.error` value means the operation fails
before any HTTP call is made.  Response handling is embedded separately
as functions from an `HttpResponse` to the operation's result.
-/

namespace Mixpanel

/-! ## JavaScript semantics helpers -/

/-- JS `x || ''` on a nullable string: `null`/`undefined` and the empty
string are falsy and coerce to `''`. -/
def jsOrEmpty : Option String → String
  | none => ""
  | some s => s

/-- JS `x || undefined` on a nullable string: the empty string is falsy
and coerces to `undefined`. -/
def jsOrUndefined : Option String → Option String
  | none => none
  | some s => if s = "" then none else some s

/-- ASCII lower-casing of one character, the effect of JS
`String.prototype.toLowerCase` on the Basic Latin range (the range the
parsed header flag is compared over). -/
def jsCharLower (c : Char) : Char :=
  if 'A' ≤ c ∧ c ≤ 'Z' then Char.ofNat (c.toNat + 32) else c

/-- ASCII lower-casing of a string (JS `toLowerCase` on Basic Latin). -/
def jsToLowerCase (s : String) : String :=
  ⟨s.toList.map jsCharLower⟩

/-- JS template-literal rendering of a possibly-`undefined` string:
`undefined` interpolates as the literal text `"undefined"`. -/
def jsTemplate : Option String → String
  | none => "undefined"
  | some s => s

/-- Leading decimal digits of a character list (`none` when the first
character is not a digit). -/
def parseLeadingDigits : List Char → Option Nat
  | [] => none
  | c :: cs =>
    if c.isDigit then
      some ((c :: cs).takeWhile Char.isDigit |>.foldl
        (fun n d => n * 10 + (d.toNat - '0'.toNat)) 0)
    else none

/-- JS `parseInt(s, 10)`: skip leading whitespace, optional sign, then
leading decimal digits; `none` models `NaN` (no digits found). -/
def jsParseInt (s : String) : Option Int :=
  let cs := s.toList.dropWhile (fun c => c = ' ' ∨ c = '\t' ∨ c = '\n' ∨ c = '\r')
  match cs with
  | '-' :: rest => (parseLeadingDigits rest).map (fun n => -(n : Int))
  | '+' :: rest => (parseLeadingDigits rest).map (fun n => (n : Int))
  | rest => (parseLeadingDigits rest).map (fun n => (n : Int))

/-- JS object spread `{...base, ...over}`: keys of `over` update an
existing key in place (keeping its original position) or are appended
in order. -/
def spreadPairs {α : Type} (base over : List (String × α)) : List (String × α) :=
  over.foldl (fun acc kv =>
    if acc.any (fun p => p.1 = kv.1) then
      acc.map (fun p => if p.1 = kv.1 then (p.1, kv.2) else p)
    else acc ++ [kv]) base

/-- JS `t || now` on a nullable number (`0` is falsy). -/
def jsOrNum (t : Option Int) (now : Int) : Int :=
  match t with
  | none => now
  | some v => if v = 0 then now else v

/-! ## Tenant credentials (environment bindings module) -/

/-- Inbound request headers, as the partial map the Fetch API's
`headers.get` exposes (`none` = header absent). -/
def HeaderMap := String → Option String

/-- Override one header name in a header map (`none` removes it). -/
def HeaderMap.override (h : HeaderMap) (name : String) (v : Option String) : HeaderMap :=
  fun n => if n = name then v else h n

/-- `TenantCredentials` from the environment bindings module. -/
structure TenantCredentials where
  username : String
  secret : String
  projectId : String
  projectToken : Option String
  euResident : Bool
  deriving Repr, DecidableEq

/-- `parseTenantCredentials`: extract tenant credentials from request
headers.  `headers.get(...) || ''` coerces absent and empty values to
`''`; `headers.get(...) || undefined` coerces an empty token to
`undefined`; the EU flag is `get(...)?.toLowerCase() === 'true'`. -/
def parseTenantCredentials (h : HeaderMap) : TenantCredentials where
  username := jsOrEmpty (h "X-Mixpanel-Service-Account-Username")
  secret := jsOrEmpty (h "X-Mixpanel-Service-Account-Secret")
  projectId := jsOrEmpty (h "X-Mixpanel-Project-Id")
  projectToken := jsOrUndefined (h "X-Mixpanel-Project-Token")
  euResident :=
    match h "X-Mixpanel-EU-Resident" with
    | none => false
    | some v => jsToLowerCase v = "true"

/-- Error message thrown when username or secret is missing. -/
def missingCredentialsMsg : String :=
  "Missing credentials. Provide X-Mixpanel-Service-Account-Username and X-Mixpanel-Service-Account-Secret headers."

/-- Error message thrown when the project id is missing. -/
def missingProjectIdMsg : String :=
  "Missing project ID. Provide X-Mixpanel-Project-Id header."

/-- `validateCredentials`: reject credentials with a falsy (empty)
username, secret, or project id; pure, performs no network call. -/
def validateCredentials (c : TenantCredentials) : Except String Unit :=
  if c.username = "" ∨ c.secret = "" then
    .error missingCredentialsMsg
  else if c.projectId = "" then
    .error missingProjectIdMsg
  else
    .ok ()

/-! ## Base URLs (client.ts configuration) -/

def DATA_API_URL : String := "https://data.mixpanel.com/api/2.0"
def MIXPANEL_API_URL : String := "https://mixpanel.com/api/2.0"
def EU_DATA_API_URL : String := "https://data-eu.mixpanel.com/api/2.0"
def EU_MIXPANEL_API_URL : String := "https://eu.mixpanel.com/api/2.0"
def INGESTION_API_URL : String := "https://api.mixpanel.com"
def EU_INGESTION_API_URL : String := "https://api-eu.mixpanel.com"
def APP_API_URL : String := "https://mixpanel.com/api/app"
def EU_APP_API_URL : String := "https://eu.mixpanel.com/api/app"

def getDataApiUrl (c : TenantCredentials) : String :=
  if c.euResident then EU_DATA_API_URL else DATA_API_URL

def getMixpanelApiUrl (c : TenantCredentials) : String :=
  if c.euResident then EU_MIXPANEL_API_URL else MIXPANEL_API_URL

def getIngestionApiUrl (c : TenantCredentials) : String :=
  if c.euResident then EU_INGESTION_API_URL else INGESTION_API_URL

def getAppApiUrl (c : TenantCredentials) : String :=
  if c.euResident then EU_APP_API_URL else APP_API_URL

/-! ## JSON values and `JSON.stringify` -/

/-- JSON values as the client sends them (objects keep the JS
insertion order of their keys). -/
inductive Json where
  | str (s : String)
  | num (n : Int)
  | bool (b : Bool)
  | null
  | arr (xs : List Json)
  | obj (fields : List (String × Json))

/-- `JSON.stringify` escaping of one string character (the subset the
client's payloads use: quote, backslash and newline; other characters
pass through). -/
def jsonEscapeChar (c : Char) : String :=
  if c = '"' then "\\\""
  else if c = '\\' then "\\\\"
  else if c = '\n' then "\\n"
  else String.singleton c

/-- `JSON.stringify` rendering of a string literal. -/
def jsonEscapeString (s : String) : String :=
  "\"" ++ String.join (s.toList.map jsonEscapeChar) ++ "\""

mutual

/-- `JSON.stringify` of a value. -/
def jsonRender : Json → String
  | .str s => jsonEscapeString s
  | .num n => toString n
  | .bool b => if b then "true" else "false"
  | .null => "null"
  | .arr xs => "[" ++ jsonRenderList xs ++ "]"
  | .obj fs => "\x7b" ++ jsonRenderFields fs ++ "\x7d"

/-- Comma-joined rendering of array elements. -/
def jsonRenderList : List Json → String
  | [] => ""
  | [x] => jsonRender x
  | x :: xs => jsonRender x ++ "," ++ jsonRenderList xs

/-- Comma-joined rendering of object fields. -/
def jsonRenderFields : List (String × Json) → String
  | [] => ""
  | [(k, v)] => jsonEscapeString k ++ ":" ++ jsonRender v
  | (k, v) :: fs => jsonEscapeString k ++ ":" ++ jsonRender v ++ "," ++ jsonRenderFields fs

end

/-! ## `btoa` (Basic-auth base64) -/

/-- The base64 alphabet. -/
def base64Alphabet : List Char :=
  "ABCDEFGHIJKLMNOPQRSTUVWXYZabcdefghijklmnopqrstuvwxyz0123456789+/".toList

/-- One base64 digit. -/
def base64Digit (n : Nat) : Char := base64Alphabet.getD n 'A'

/-- Base64-encode a byte list, three bytes at a time with `=` padding. -/
def base64Encode : List Nat → String
  | [] => ""
  | [a] =>
    String.mk [base64Digit (a / 4), base64Digit (a % 4 * 16)] ++ "=="
  | [a, b] =>
    String.mk [base64Digit (a / 4), base64Digit (a % 4 * 16 + b / 16),
      base64Digit (b % 16 * 4)] ++ "="
  | a :: b :: c :: rest =>
    String.mk [base64Digit (a / 4), base64Digit (a % 4 * 16 + b / 16),
      base64Digit (b % 16 * 4 + c / 64), base64Digit (c % 64)] ++ base64Encode rest

/-- JS `btoa` on a string of Latin-1 code points. -/
def btoa (s : String) : String :=
  base64Encode (s.toList.map Char.toNat)

/-! ## `URLSearchParams` -/

/-- Bytes that `application/x-www-form-urlencoded` serialization leaves
unescaped: ASCII alphanumerics and `*-._`. -/
def formSafeChar (c : Char) : Bool :=
  ('A' ≤ c ∧ c ≤ 'Z') ∨ ('a' ≤ c ∧ c ≤ 'z') ∨ ('0' ≤ c ∧ c ≤ '9') ∨
    c = '*' ∨ c = '-' ∨ c = '.' ∨ c = '_'

/-- Uppercase hex digit. -/
def hexDigit (n : Nat) : Char := "0123456789ABCDEF".toList.getD n '0'

/-- Form-urlencode one ASCII character (space becomes `+`, other unsafe
characters become `%XX`). -/
def formEncodeChar (c : Char) : String :=
  if formSafeChar c then String.singleton c
  else if c = ' ' then "+"
  else String.mk ['%', hexDigit (c.toNat / 16), hexDigit (c.toNat % 16)]

/-- Form-urlencode a string (ASCII payloads). -/
def formEncode (s : String) : String :=
  String.join (s.toList.map formEncodeChar)

/-- `URLSearchParams.prototype.set`: update an existing key in place or
append a new pair. -/
def searchParamsSet (ps : List (String × String)) (k v : String) : List (String × String) :=
  if ps.any (fun p => p.1 = k) then
    ps.map (fun p => if p.1 = k then (p.1, v) else p)
  else ps ++ [(k, v)]

/-- `URLSearchParams.prototype.toString`: `k=v` pairs joined by `&`,
keys and values form-urlencoded. -/
def searchParamsToString : List (String × String) → String
  | [] => ""
  | [(k, v)] => formEncode k ++ "=" ++ formEncode v
  | (k, v) :: ps => formEncode k ++ "=" ++ formEncode v ++ "&" ++ searchParamsToString ps

/-! ## Errors, request descriptors and responses -/

/-- The error classes of the utils/errors module, as the client
constructs them.  A `RateLimitError` carries a retry-after duration
(`none` models JS `NaN` from a failed `parseInt`); an `ApiError`
optionally carries the HTTP status. -/
inductive MixpanelError where
  | rateLimit (message : String) (retryAfter : Option Int)
  | authentication (message : String)
  | api (message : String) (status : Option Nat)
  deriving Repr, DecidableEq

/-- One outbound HTTP request as the client builds it. -/
structure RequestDescriptor where
  url : String
  method : String
  headers : List (String × String)
  body : Option String
  deriving Repr, DecidableEq

/-- An HTTP response as the client observes it. -/
structure HttpResponse where
  status : Nat
  headers : HeaderMap
  bodyText : String

/-- Fetch-API `response.ok`: status in the 2xx range. -/
def responseOk (r : HttpResponse) : Bool :=
  200 ≤ r.status ∧ r.status ≤ 299

/-- `getAuthHeaders`: Basic auth from `btoa(username:secret)` plus the
JSON content-type headers. -/
def getAuthHeaders (c : TenantCredentials) : List (String × String) :=
  [("Authorization", "Basic " ++ btoa (c.username ++ ":" ++ c.secret)),
   ("Content-Type", "application/json"),
   ("Accept", "application/json")]

/-- Request construction of the private `request` helper: concatenate
base URL and endpoint, and merge the auth headers with the
call-specific headers (call-specific keys override). -/
def buildRequest (c : TenantCredentials) (baseUrl endpoint method : String)
    (body : Option String) (extraHeaders : List (String × String)) : RequestDescriptor where
  url := baseUrl ++ endpoint
  method := method
  headers := spreadPairs (getAuthHeaders c) extraHeaders
  body := body

/-! ## Response classification -/

/-- Retry-after computation of the `request` helper at status 429:
`retryAfter ? parseInt(retryAfter, 10) : 60`.  A `null` or empty
(falsy) header yields 60; otherwise `parseInt`, whose failure (`none`)
models `NaN`. -/
def retryAfterOfHeader (h : Option String) : Option Int :=
  match h with
  | none => some 60
  | some s => if s = "" then some 60 else jsParseInt s

/-- Response classification of the private `request` helper: 429 maps
to a rate-limit error, 401/403 to an authentication error, any other
non-2xx to a generic API error carrying status and body text, and 2xx
to the body. -/
def requestHandleResponse (r : HttpResponse) : Except MixpanelError String :=
  if r.status = 429 then
    .error (.rateLimit "Rate limit exceeded" (retryAfterOfHeader (r.headers "Retry-After")))
  else if r.status = 401 ∨ r.status = 403 then
    .error (.authentication "Invalid credentials")
  else if ¬ responseOk r then
    .error (.api ("API error: " ++ toString r.status ++ " - " ++ r.bodyText) (some r.status))
  else
    .ok r.bodyText

/-- Response classification of the private `requestIngestion` helper:
429 maps to a rate-limit error with a fixed 60-second retry-after (the
`Retry-After` header is not consulted), and any other non-2xx
(including 401/403) to a generic API error. -/
def requestIngestionHandleResponse (r : HttpResponse) : Except MixpanelError String :=
  if r.status = 429 then
    .error (.rateLimit "Rate limit exceeded" (some 60))
  else if ¬ responseOk r then
    .error (.api ("Ingestion API error: " ++ toString r.status ++ " - " ++ r.bodyText) (some r.status))
  else
    .ok r.bodyText

/-- Result mapping `{ status: response.ok ? 1 : 0 }` used by the
direct-`fetch` ingestion operations (`trackEvent`, `trackEvents`,
`engageRequest`, `groupRequest`, identity operations). -/
def ingestOkStatus (r : HttpResponse) : Nat :=
  if responseOk r then 1 else 0

/-! ## Query-surface operations -/

/-- Parameters of `queryInsights`. -/
structure InsightsParams where
  fromDate : String
  toDate : String
  event : Option String := none
  groupBy : Option (List String) := none
  whereFilter : Option String := none
  interval : Option String := none

/-- Add a query parameter when the JS value is truthy (present and
non-empty). -/
def addIfTruthy (qp : List (String × String)) (k : String) :
    Option String → List (String × String)
  | none => qp
  | some s => if s = "" then qp else searchParamsSet qp k s

/-- The `URLSearchParams` of `queryInsights`, in insertion order. -/
def queryInsightsParamsList (c : TenantCredentials) (p : InsightsParams) :
    List (String × String) :=
  let qp := [("project_id", c.projectId), ("from_date", p.fromDate), ("to_date", p.toDate)]
  let qp := addIfTruthy qp "event" (p.event.map (fun e => jsonRender (.arr [.str e])))
  let qp := addIfTruthy qp "interval" p.interval
  let qp := addIfTruthy qp "where" p.whereFilter
  let qp := match p.groupBy with
    | some g => searchParamsSet qp "on" (jsonRender (.arr (g.map .str)))
    | none => qp
  qp

/-- `queryInsights`: a GET against the query surface with the insights
query string and Basic-auth headers. -/
def queryInsights (c : TenantCredentials) (p : InsightsParams) : RequestDescriptor :=
  buildRequest c (getMixpanelApiUrl c)
    ("/insights?" ++ searchParamsToString (queryInsightsParamsList c p)) "GET" none []

/-- Parameters of `exportEvents`. -/
structure ExportParams where
  fromDate : String
  toDate : String
  event : Option (List String) := none
  whereFilter : Option String := none
  limit : Option Int := none

/-- The `URLSearchParams` of `exportEvents`. -/
def exportEventsParamsList (c : TenantCredentials) (p : ExportParams) :
    List (String × String) :=
  let qp := [("project_id", c.projectId), ("from_date", p.fromDate), ("to_date", p.toDate)]
  let qp := match p.event with
    | some es => searchParamsSet qp "event" (jsonRender (.arr (es.map .str)))
    | none => qp
  let qp := addIfTruthy qp "where" p.whereFilter
  let qp := match p.limit with
    | some n => if n = 0 then qp else searchParamsSet qp "limit" (toString n)
    | none => qp
  qp

/-- `exportEvents`: a direct GET `fetch` against the data-export
surface with Basic-auth headers. -/
def exportEvents (c : TenantCredentials) (p : ExportParams) : RequestDescriptor where
  url := getDataApiUrl c ++ "/export?" ++ searchParamsToString (exportEventsParamsList c p)
  method := "GET"
  headers := getAuthHeaders c
  body := none

/-- `listLookupTables`: a GET via `request` against the ingestion
surface. -/
def listLookupTables (c : TenantCredentials) : RequestDescriptor :=
  buildRequest c (getIngestionApiUrl c)
    ("/lookup_tables?project_id=" ++ c.projectId) "GET" none []

/-- `listAnnotations`: a GET via `request` against the app/management
surface. -/
def listAnnotations (c : TenantCredentials) (fromDate toDate : Option String) :
    RequestDescriptor :=
  let qp := [("project_id", c.projectId)]
  let qp := addIfTruthy qp "from_date" fromDate
  let qp := addIfTruthy qp "to_date" toDate
  buildRequest c (getAppApiUrl c)
    ("/projects/" ++ c.projectId ++ "/annotations?" ++ searchParamsToString qp) "GET" none []

/-! ## Ingestion-surface operations (fail fast without a project token) -/

def tokenRequiredTrackingMsg : String :=
  "Project token required for tracking events. Set X-Mixpanel-Project-Token header."

def tokenRequiredImportMsg : String :=
  "Project token required for importing events. Set X-Mixpanel-Project-Token header."

def tokenRequiredProfileMsg : String :=
  "Project token required for profile operations. Set X-Mixpanel-Project-Token header."

def tokenRequiredGroupMsg : String :=
  "Project token required for group operations. Set X-Mixpanel-Project-Token header."

def tokenRequiredIdentityMsg : String :=
  "Project token required for identity operations. Set X-Mixpanel-Project-Token header."

def tokenRequiredAliasMsg : String :=
  "Project token required for alias operations. Set X-Mixpanel-Project-Token header."

def tokenRequiredMergeMsg : String :=
  "Project token required for merge operations. Set X-Mixpanel-Project-Token header."

/-- JS truthiness of a JSON value (`0`, `''`, `false`, `null` are
falsy). -/
def jsTruthy : Json → Bool
  | .num n => n ≠ 0
  | .str s => s ≠ ""
  | .bool b => b
  | .null => false
  | .arr _ => true
  | .obj _ => true

/-- Lookup of a field in a JSON-object field list (`undefined` =
`none`). -/
def lookupField (fs : List (String × Json)) (k : String) : Option Json :=
  (fs.find? (fun p => p.1 = k)).map Prod.snd

/-- Parameters of `trackEvent`. -/
structure TrackEventParams where
  event : String
  distinctId : String
  properties : List (String × Json) := []
  time : Option Int := none

/-- `trackEvent`: fails fast with a descriptive error when the project
token is falsy; otherwise issues one POST to the ingestion `/track`
endpoint with a single-element event array (`now` stands for
`Math.floor(Date.now() / 1000)`). -/
def trackEvent (c : TenantCredentials) (p : TrackEventParams) (now : Int) :
    Except MixpanelError RequestDescriptor :=
  match jsOrUndefined c.projectToken with
  | none => .error (.api tokenRequiredTrackingMsg none)
  | some token =>
    let props := spreadPairs
      [("distinct_id", Json.str p.distinctId), ("token", Json.str token),
       ("time", Json.num (jsOrNum p.time now))] p.properties
    .ok { url := getIngestionApiUrl c ++ "/track"
          method := "POST"
          headers := [("Content-Type", "application/json")]
          body := some (jsonRender (.arr [.obj [("event", .str p.event), ("properties", .obj props)]])) }

/-- One event of a `trackEvents` / `importEvents` batch. -/
structure BatchEvent where
  event : String
  properties : List (String × Json)

/-- `trackEvents`: fails fast without a token; otherwise one POST of
the batch to `/track`, overriding each event's `token` and defaulting a
falsy `time` to `now`. -/
def trackEvents (c : TenantCredentials) (events : List BatchEvent) (now : Int) :
    Except MixpanelError RequestDescriptor :=
  match jsOrUndefined c.projectToken with
  | none => .error (.api tokenRequiredTrackingMsg none)
  | some token =>
    let data := events.map (fun e =>
      let timeJson := match lookupField e.properties "time" with
        | some v => if jsTruthy v then v else Json.num now
        | none => Json.num now
      Json.obj [("event", .str e.event),
        ("properties", .obj (spreadPairs e.properties
          [("token", Json.str token), ("time", timeJson)]))])
    .ok { url := getIngestionApiUrl c ++ "/track"
          method := "POST"
          headers := [("Content-Type", "application/json")]
          body := some (jsonRender (.arr data)) }

/-- `importEvents`: fails fast without a token; otherwise one POST of
the batch (token injected into each event) to `/import` via
`requestIngestion`. -/
def importEvents (c : TenantCredentials) (events : List BatchEvent) :
    Except MixpanelError RequestDescriptor :=
  match jsOrUndefined c.projectToken with
  | none => .error (.api tokenRequiredImportMsg none)
  | some token =>
    let data := events.map (fun e =>
      Json.obj [("event", .str e.event),
        ("properties", .obj (spreadPairs e.properties [("token", Json.str token)]))])
    .ok { url := getIngestionApiUrl c ++ "/import"
          method := "POST"
          headers := [("Content-Type", "application/json"), ("Accept", "application/json")]
          body := some (jsonRender (.arr data)) }

/-- The profile-mutation envelope `[{$token, $distinct_id, <op>: data}]`. -/
def engagePayload (token distinctId operation : String) (data : Json) : Json :=
  .arr [.obj [("$token", .str token), ("$distinct_id", .str distinctId), (operation, data)]]

/-- The private `engageRequest` helper: fails fast without a token;
otherwise one POST of the envelope to the ingestion `/engage`
endpoint. -/
def engageRequest (c : TenantCredentials) (operation distinctId : String) (data : Json) :
    Except MixpanelError RequestDescriptor :=
  match jsOrUndefined c.projectToken with
  | none => .error (.api tokenRequiredProfileMsg none)
  | some token =>
    .ok { url := getIngestionApiUrl c ++ "/engage"
          method := "POST"
          headers := [("Content-Type", "application/json")]
          body := some (jsonRender (engagePayload token distinctId operation data)) }

def setProfileProperties (c : TenantCredentials) (distinctId : String)
    (properties : List (String × Json)) : Except MixpanelError RequestDescriptor :=
  engageRequest c "$set" distinctId (.obj properties)

def setProfilePropertiesOnce (c : TenantCredentials) (distinctId : String)
    (properties : List (String × Json)) : Except MixpanelError RequestDescriptor :=
  engageRequest c "$set_once" distinctId (.obj properties)

def incrementProfileProperties (c : TenantCredentials) (distinctId : String)
    (properties : List (String × Int)) : Except MixpanelError RequestDescriptor :=
  engageRequest c "$add" distinctId (.obj (properties.map (fun p => (p.1, Json.num p.2))))

def appendToProfileList (c : TenantCredentials) (distinctId property : String)
    (values : List Json) : Except MixpanelError RequestDescriptor :=
  engageRequest c "$append" distinctId (.obj [(property, .arr values)])

def removeFromProfileList (c : TenantCredentials) (distinctId property : String)
    (values : List Json) : Except MixpanelError RequestDescriptor :=
  engageRequest c "$remove" distinctId (.obj [(property, .arr values)])

def unionToProfileList (c : TenantCredentials) (distinctId : String)
    (properties : List (String × List Json)) : Except MixpanelError RequestDescriptor :=
  engageRequest c "$union" distinctId (.obj (properties.map (fun p => (p.1, Json.arr p.2))))

def unsetProfileProperties (c : TenantCredentials) (distinctId : String)
    (properties : List String) : Except MixpanelError RequestDescriptor :=
  engageRequest c "$unset" distinctId (.arr (properties.map .str))

/-- `deleteProfile`: its own token check, then the `$delete` envelope
with an empty-string payload. -/
def deleteProfile (c : TenantCredentials) (distinctId : String) :
    Except MixpanelError RequestDescriptor :=
  match jsOrUndefined c.projectToken with
  | none => .error (.api tokenRequiredProfileMsg none)
  | some token =>
    .ok { url := getIngestionApiUrl c ++ "/engage"
          method := "POST"
          headers := [("Content-Type", "application/json")]
          body := some (jsonRender (engagePayload token distinctId "$delete" (.str ""))) }

/-- The group-mutation envelope `[{$token, $group_key, $group_id,
<op>: data}]`. -/
def groupPayload (token groupKey groupId operation : String) (data : Json) : Json :=
  .arr [.obj [("$token", .str token), ("$group_key", .str groupKey),
    ("$group_id", .str groupId), (operation, data)]]

/-- The private `groupRequest` helper: fails fast without a token;
otherwise one POST of the envelope to the ingestion `/groups`
endpoint. -/
def groupRequest (c : TenantCredentials) (operation groupKey groupId : String) (data : Json) :
    Except MixpanelError RequestDescriptor :=
  match jsOrUndefined c.projectToken with
  | none => .error (.api tokenRequiredGroupMsg none)
  | some token =>
    .ok { url := getIngestionApiUrl c ++ "/groups"
          method := "POST"
          headers := [("Content-Type", "application/json")]
          body := some (jsonRender (groupPayload token groupKey groupId operation data)) }

def setGroupProperties (c : TenantCredentials) (groupKey groupId : String)
    (properties : List (String × Json)) : Except MixpanelError RequestDescriptor :=
  groupRequest c "$set" groupKey groupId (.obj properties)

def setGroupPropertiesOnce (c : TenantCredentials) (groupKey groupId : String)
    (properties : List (String × Json)) : Except MixpanelError RequestDescriptor :=
  groupRequest c "$set_once" groupKey groupId (.obj properties)

def unsetGroupProperties (c : TenantCredentials) (groupKey groupId : String)
    (properties : List String) : Except MixpanelError RequestDescriptor :=
  groupRequest c "$unset" groupKey groupId (.arr (properties.map .str))

/-- `deleteGroup`: its own token check, then the `$delete` group
envelope. -/
def deleteGroup (c : TenantCredentials) (groupKey groupId : String) :
    Except MixpanelError RequestDescriptor :=
  match jsOrUndefined c.projectToken with
  | none => .error (.api tokenRequiredGroupMsg none)
  | some token =>
    .ok { url := getIngestionApiUrl c ++ "/groups"
          method := "POST"
          headers := [("Content-Type", "application/json")]
          body := some (jsonRender (groupPayload token groupKey groupId "$delete" (.str ""))) }

/-- `createIdentity`: fails fast without a token; otherwise one POST of
the `$identify` pseudo-event to `/track`. -/
def createIdentity (c : TenantCredentials) (distinctId anonId : String) :
    Except MixpanelError RequestDescriptor :=
  match jsOrUndefined c.projectToken with
  | none => .error (.api tokenRequiredIdentityMsg none)
  | some token =>
    .ok { url := getIngestionApiUrl c ++ "/track"
          method := "POST"
          headers := [("Content-Type", "application/json")]
          body := some (jsonRender (.arr [.obj [("event", .str "$identify"),
            ("properties", .obj [("$identified_id", .str distinctId),
              ("$anon_id", .str anonId), ("token", .str token)])]])) }

/-- `createAlias`: fails fast without a token; otherwise one POST of
the `$create_alias` pseudo-event to `/track`. -/
def createAlias (c : TenantCredentials) (distinctId aliasId : String) :
    Except MixpanelError RequestDescriptor :=
  match jsOrUndefined c.projectToken with
  | none => .error (.api tokenRequiredAliasMsg none)
  | some token =>
    .ok { url := getIngestionApiUrl c ++ "/track"
          method := "POST"
          headers := [("Content-Type", "application/json")]
          body := some (jsonRender (.arr [.obj [("event", .str "$create_alias"),
            ("properties", .obj [("distinct_id", .str distinctId),
              ("alias", .str aliasId), ("token", .str token)])]])) }

/-- `mergeIdentities`: fails fast without a token; otherwise one POST
of the `$merge` pseudo-event to `/track`. -/
def mergeIdentities (c : TenantCredentials) (distinctId1 distinctId2 : String) :
    Except MixpanelError RequestDescriptor :=
  match jsOrUndefined c.projectToken with
  | none => .error (.api tokenRequiredMergeMsg none)
  | some token =>
    .ok { url := getIngestionApiUrl c ++ "/track"
          method := "POST"
          headers := [("Content-Type", "application/json")]
          body := some (jsonRender (.arr [.obj [("event", .str "$merge"),
            ("properties", .obj [("$distinct_ids", .arr [.str distinctId1, .str distinctId2]),
              ("token", .str token)])]])) }

/-! ## GDPR operations -/

/-- `createDataRetrieval`: no token check — the request is issued via
`request` against the app surface with the (possibly `undefined`)
project token interpolated into the URL's query string. -/
def createDataRetrieval (c : TenantCredentials) (distinctIds : List String)
    (dataType completionEmail : Option String) : RequestDescriptor :=
  let body := [("distinct_ids", Json.arr (distinctIds.map .str))]
  let body := match dataType with
    | some s => if s = "" then body else body ++ [("data_type", Json.str s)]
    | none => body
  let body := match completionEmail with
    | some s => if s = "" then body else body ++ [("completion_email", Json.str s)]
    | none => body
  buildRequest c (getAppApiUrl c)
    ("/data-retrievals/v3.0?token=" ++ jsTemplate c.projectToken) "POST"
    (some (jsonRender (.obj body))) []

/-- `createDataDeletion`: no token check — issued via `request` with
the (possibly `undefined`) project token in the URL. -/
def createDataDeletion (c : TenantCredentials) (distinctIds : List String) :
    RequestDescriptor :=
  buildRequest c (getAppApiUrl c)
    ("/data-deletions/v3.0?token=" ++ jsTemplate c.projectToken) "POST"
    (some (jsonRender (.obj [("distinct_ids", Json.arr (distinctIds.map .str))]))) []

/-! ## Lookup-table CSV serialization -/

/-- A primitive JS value stored in a lookup-table row. -/
inductive JsValue where
  | str (s : String)
  | num (n : Int)
  | bool (b : Bool)
  | nul
  deriving Repr, DecidableEq

/-- JS `String(val)` on a primitive value. -/
def jsString : JsValue → String
  | .str s => s
  | .num n => toString n
  | .bool b => if b then "true" else "false"
  | .nul => "null"

/-- A lookup-table row (`Record<string, unknown>`): insertion-ordered
keys; an absent key models `undefined`. -/
abbrev Row := List (String × JsValue)

/-- `row[h]` (`none` = `undefined`). -/
def lookupRow (row : Row) (k : String) : Option JsValue :=
  (row.find? (fun p => p.1 = k)).map Prod.snd

/-- The serialized cell text: `null`/`undefined` become `''`, any other
value its `String(...)` rendering. -/
def cellValue (row : Row) (h : String) : String :=
  match lookupRow row h with
  | none => ""
  | some .nul => ""
  | some v => jsString v

/-- Whether the serializer quotes a value: it contains a comma, double
quote, or newline. -/
def needsQuote (s : String) : Bool :=
  s.toList.any (fun c => c = ',' ∨ c = '"' ∨ c = '\n')

/-- `str.replace(/"/g, '""')`. -/
def doubleQuotes : List Char → List Char
  | [] => []
  | c :: cs => if c = '"' then '"' :: '"' :: doubleQuotes cs else c :: doubleQuotes cs

/-- CSV escaping of one cell: values containing a comma, quote, or
newline are wrapped in quotes with internal quotes doubled. -/
def escapeCsv (s : String) : String :=
  if needsQuote s then "\"" ++ String.mk (doubleQuotes s.toList) ++ "\"" else s

/-- JS `Array.prototype.join(sep)`. -/
def joinWith (sep : String) : List String → String
  | [] => ""
  | [x] => x
  | x :: xs => x ++ sep ++ joinWith sep xs

/-- The CSV columns: `Object.keys(data[0])`. -/
def csvHeaderKeys (data : List Row) : List String :=
  (data.headD []).map Prod.fst

/-- One serialized data line. -/
def csvLine (keys : List String) (row : Row) : String :=
  joinWith "," (keys.map (fun h => escapeCsv (cellValue row h)))

/-- The full CSV text: the unescaped header line followed by one
escaped line per row, joined by `\n`. -/
def lookupTableCsv (data : List Row) : String :=
  joinWith "\n" (joinWith "," (csvHeaderKeys data) :: data.map (csvLine (csvHeaderKeys data)))

/-- Error message for an empty lookup-table payload. -/
def lookupTableEmptyMsg : String := "Lookup table data cannot be empty"

/-- `createOrReplaceLookupTable`: rejects empty data before any HTTP
call; otherwise one PUT of the CSV text with Basic-auth headers and a
`text/csv` content type. -/
def createOrReplaceLookupTable (c : TenantCredentials) (tableName : String)
    (data : List Row) : Except MixpanelError RequestDescriptor :=
  if data.length = 0 then .error (.api lookupTableEmptyMsg none)
  else .ok
    { url := getIngestionApiUrl c ++ "/lookup_tables/" ++ tableName ++
        "?project_id=" ++ c.projectId
      method := "PUT"
      headers := spreadPairs (getAuthHeaders c) [("Content-Type", "text/csv")]
      body := some (lookupTableCsv data) }

/-! ## A standard CSV parser (RFC 4180 style, lenient)

Records are separated by `\n`; a field beginning with a double quote is
quoted, `""` inside a quoted field denotes one quote; an unterminated
quote consumes the rest of the input. -/

/-- Parser mode: inside an unquoted field, inside a quoted field, or
just after a quote inside a quoted field. -/
inductive CsvMode where
  | unq | quoted | qseen
  deriving Repr, DecidableEq

/-- Parser state: current field, current record, finished records. -/
structure CsvSt where
  mode : CsvMode
  field : List Char
  record : List String
  rows : List (List String)
  deriving Repr, DecidableEq

/-- One parser transition. -/
def csvStep (st : CsvSt) (ch : Char) : CsvSt :=
  match st.mode with
  | .unq =>
    if ch = ',' then
      { st with field := [], record := st.record ++ [String.mk st.field] }
    else if ch = '\n' then
      { mode := .unq, field := [], record := [],
        rows := st.rows ++ [st.record ++ [String.mk st.field]] }
    else if ch = '"' ∧ st.field = [] then
      { st with mode := .quoted }
    else
      { st with field := st.field ++ [ch] }
  | .quoted =>
    if ch = '"' then { st with mode := .qseen }
    else { st with field := st.field ++ [ch] }
  | .qseen =>
    if ch = '"' then { st with mode := .quoted, field := st.field ++ ['"'] }
    else if ch = ',' then
      { st with mode := .unq, field := [], record := st.record ++ [String.mk st.field] }
    else if ch = '\n' then
      { mode := .unq, field := [], record := [],
        rows := st.rows ++ [st.record ++ [String.mk st.field]] }
    else
      { st with mode := .unq, field := st.field ++ [ch] }

/-- End of input: flush the pending record unless nothing is pending
(the optional final newline does not produce an empty record). -/
def csvFinish (st : CsvSt) : List (List String) :=
  match st.mode, st.field, st.record with
  | .unq, [], [] => st.rows
  | _, _, _ => st.rows ++ [st.record ++ [String.mk st.field]]

/-- Initial parser state. -/
def csvInit : CsvSt := ⟨.unq, [], [], []⟩

/-- Parse a CSV text into records of fields. -/
def csvParse (s : String) : List (List String) :=
  csvFinish (s.toList.foldl csvStep csvInit)

/-! ## Statement helpers -/

/-- Equality of characters up to ASCII case. -/
def charCaseEq (a b : Char) : Prop := jsCharLower a = jsCharLower b

/-- Whether the first list is an initial segment of the second. -/
def listLeadEq : List Char → List Char → Bool
  | [], _ => true
  | _ :: _, [] => false
  | a :: as, b :: bs => a = b && listLeadEq as bs

/-- Whether `pat` occurs as a contiguous substring of `s`. -/
def containsSubstr (s pat : String) : Bool :=
  (List.range (s.toList.length + 1)).any
    (fun i => listLeadEq pat.toList (s.toList.drop i))

/-- Remove every binding of key `k` from a row (used to state that keys
outside the first row's key set do not influence the CSV). -/
def eraseKey (k : String) (row : Row) : Row :=
  row.filter (fun p => p.1 ≠ k)

/-- One CSV line from already-serialized cell texts (each cell
escaped). -/
def emitLine (cells : List String) : String :=
  joinWith "," (cells.map escapeCsv)

/-!
# Theorems

One theorem (plus witness / counterexample where required) per claim,
preceded by shared helper lemmas.
-/

/-- Removing a key a row does not contain leaves the row unchanged. -/
theorem eraseKey_of_not_mem (k : String) (row : Row) (h : k ∉ row.map Prod.fst) :
    eraseKey k row = row := by
  induction row with
  | nil => rfl
  | cons p rest ih =>
    simp only [List.map_cons, List.mem_cons] at h
    push_neg at h
    simp only [eraseKey] at ih ⊢
    simp [List.filter_cons, Ne.symm h.1, ih h.2]
    intro a b hab e
    exact h.2 (List.mem_map.mpr ⟨(a, b), hab, e⟩)

/-- Looking up a key other than the erased one is unchanged. -/
theorem lookupRow_eraseKey (k h : String) (row : Row) (hne : h ≠ k) :
    lookupRow (eraseKey k row) h = lookupRow row h := by
  induction row with
  | nil => rfl
  | cons p rest ih =>
    by_cases hpk : p.1 = k
    · have hph : ¬ (p.1 = h) := by rw [hpk]; exact fun e => hne e.symm
      have h1 : eraseKey k (p :: rest) = eraseKey k rest := by
        simp [eraseKey, List.filter_cons, hpk]
      rw [h1, ih]
      show lookupRow rest h =
        (List.find? (fun q => q.1 = h) (p :: rest)).map Prod.snd
      rw [List.find?_cons_of_neg _ (by simpa using hph)]
      rfl
    · have h1 : eraseKey k (p :: rest) = p :: eraseKey k rest := by
        simp [eraseKey, List.filter_cons, hpk]
      rw [h1]
      by_cases hph : p.1 = h
      · show (List.find? (fun q => q.1 = h) (p :: eraseKey k rest)).map Prod.snd =
          (List.find? (fun q => q.1 = h) (p :: rest)).map Prod.snd
        rw [List.find?_cons_of_pos _ (by simpa using hph),
          List.find?_cons_of_pos _ (by simpa using hph)]
      · show (List.find? (fun q => q.1 = h) (p :: eraseKey k rest)).map Prod.snd =
          (List.find? (fun q => q.1 = h) (p :: rest)).map Prod.snd
        rw [List.find?_cons_of_neg _ (by simpa using hph),
          List.find?_cons_of_neg _ (by simpa using hph)]
        exact ih

/-- A serialized line over keys not containing `k` ignores `k`'s
bindings. -/
theorem csvLine_eraseKey (keys : List String) (k : String) (row : Row)
    (hk : k ∉ keys) : csvLine keys (eraseKey k row) = csvLine keys row := by
  unfold csvLine
  congr 1
  exact List.map_congr_left fun h hmem => by
    have : h ≠ k := fun e => hk (e ▸ hmem)
    rw [cellValue, cellValue, lookupRow_eraseKey k h row this]

/-- C7: with credentials `{username:"svc", secret:"shh", projectId:"123"}`
(non-EU) and an insights query for `fromDate "2024-01-01"`,
`toDate "2024-01-31"`, `event "Signup"`, the constructed request targets
the standard query base URL, its query parameters are
`project_id=123`, `from_date=2024-01-01`, `to_date=2024-01-31`,
`event=["Signup"]` (in that order; bracket and quote characters are
form-urlencoded in the final URL string), and its Authorization header
is `Basic` followed by `base64("svc:shh") = "c3ZjOnNoaA=="`. -/
theorem C7_query_insights_scenario :
    queryInsightsParamsList ⟨"svc", "shh", "123", none, false⟩
        ⟨"2024-01-01", "2024-01-31", some "Signup", none, none, none⟩ =
      [("project_id", "123"), ("from_date", "2024-01-01"),
       ("to_date", "2024-01-31"), ("event", "[\"Signup\"]")] ∧
    queryInsights ⟨"svc", "shh", "123", none, false⟩
        ⟨"2024-01-01", "2024-01-31", some "Signup", none, none, none⟩ =
      { url := MIXPANEL_API_URL ++
          "/insights?project_id=123&from_date=2024-01-01&to_date=2024-01-31&event=%5B%22Signup%22%5D"
        method := "GET"
        headers := [("Authorization", "Basic c3ZjOnNoaA=="),
          ("Content-Type", "application/json"), ("Accept", "application/json")]
        body := none } ∧
    btoa ("svc" ++ ":" ++ "shh") = "c3ZjOnNoaA==" := by
  refine ⟨rfl, ?_, rfl⟩
  rfl

/-- C8: with a project token present, every profile mutation produces
exactly one outbound request (the returned descriptor), a POST to the
ingestion `/engage` endpoint whose JSON body is the single-element
envelope `[{$token, $distinct_id, <operation-key>: <payload>}]`, the
operation key ranging over `$set` / `$set_once` / `$add` / `$append` /
`$remove` / `$union` / `$unset` / `$delete`; concretely,
`setProfileProperties "u1" {plan:"pro"}` sends exactly
`[{"$token":"tok","$distinct_id":"u1","$set":{"plan":"pro"}}]`. -/
theorem C8_profile_mutation_envelope (c : TenantCredentials) (tok : String)
    (htok : c.projectToken = some tok) (hne : tok ≠ "") :
    (∀ d props, setProfileProperties c d props = .ok
      { url := getIngestionApiUrl c ++ "/engage", method := "POST"
        headers := [("Content-Type", "application/json")]
        body := some (jsonRender (engagePayload tok d "$set" (.obj props))) }) ∧
    (∀ d props, setProfilePropertiesOnce c d props = .ok
      { url := getIngestionApiUrl c ++ "/engage", method := "POST"
        headers := [("Content-Type", "application/json")]
        body := some (jsonRender (engagePayload tok d "$set_once" (.obj props))) }) ∧
    (∀ d props, incrementProfileProperties c d props = .ok
      { url := getIngestionApiUrl c ++ "/engage", method := "POST"
        headers := [("Content-Type", "application/json")]
        body := some (jsonRender (engagePayload tok d "$add"
          (.obj (props.map (fun p => (p.1, Json.num p.2)))))) }) ∧
    (∀ d prop vals, appendToProfileList c d prop vals = .ok
      { url := getIngestionApiUrl c ++ "/engage", method := "POST"
        headers := [("Content-Type", "application/json")]
        body := some (jsonRender (engagePayload tok d "$append" (.obj [(prop, .arr vals)]))) }) ∧
    (∀ d prop vals, removeFromProfileList c d prop vals = .ok
      { url := getIngestionApiUrl c ++ "/engage", method := "POST"
        headers := [("Content-Type", "application/json")]
        body := some (jsonRender (engagePayload tok d "$remove" (.obj [(prop, .arr vals)]))) }) ∧
    (∀ d props, unionToProfileList c d props = .ok
      { url := getIngestionApiUrl c ++ "/engage", method := "POST"
        headers := [("Content-Type", "application/json")]
        body := some (jsonRender (engagePayload tok d "$union"
          (.obj (props.map (fun p => (p.1, Json.arr p.2)))))) }) ∧
    (∀ d props, unsetProfileProperties c d props = .ok
      { url := getIngestionApiUrl c ++ "/engage", method := "POST"
        headers := [("Content-Type", "application/json")]
        body := some (jsonRender (engagePayload tok d "$unset" (.arr (props.map .str)))) }) ∧
    (∀ d, deleteProfile c d = .ok
      { url := getIngestionApiUrl c ++ "/engage", method := "POST"
        headers := [("Content-Type", "application/json")]
        body := some (jsonRender (engagePayload tok d "$delete" (.str ""))) }) ∧
    setProfileProperties ⟨"svc", "shh", "123", some "tok", false⟩ "u1"
        [("plan", Json.str "pro")] = .ok
      { url := INGESTION_API_URL ++ "/engage", method := "POST"
        headers := [("Content-Type", "application/json")]
        body := some "[\x7b\"$token\":\"tok\",\"$distinct_id\":\"u1\",\"$set\":\x7b\"plan\":\"pro\"\x7d\x7d]" } := by
  have hjs : jsOrUndefined c.projectToken = some tok := by
    rw [htok]; simp [jsOrUndefined, hne]
  refine ⟨?_, ?_, ?_, ?_, ?_, ?_, ?_, ?_, ?_⟩
  · intro d props
    simp [setProfileProperties, engageRequest, hjs]
  · intro d props
    simp [setProfilePropertiesOnce, engageRequest, hjs]
  · intro d props
    simp [incrementProfileProperties, engageRequest, hjs]
  · intro d prop vals
    simp [appendToProfileList, engageRequest, hjs]
  · intro d prop vals
    simp [removeFromProfileList, engageRequest, hjs]
  · intro d props
    simp [unionToProfileList, engageRequest, hjs]
  · intro d props
    simp [unsetProfileProperties, engageRequest, hjs]
  · intro d
    simp [deleteProfile, hjs]
  · rfl

/-- Witness for C8 at the concrete scenario of the claim. -/
theorem C8_profile_mutation_envelope_witness :
    setProfileProperties ⟨"svc", "shh", "123", some "tok", false⟩ "u1"
        [("plan", Json.str "pro")] = .ok
      { url := getIngestionApiUrl ⟨"svc", "shh", "123", some "tok", false⟩ ++ "/engage"
        method := "POST"
        headers := [("Content-Type", "application/json")]
        body := some (jsonRender (engagePayload "tok" "u1" "$set"
          (.obj [("plan", Json.str "pro")]))) } :=
  (C8_profile_mutation_envelope ⟨"svc", "shh", "123", some "tok", false⟩ "tok" rfl
    (by decide)).1 "u1" [("plan", Json.str "pro")]

/-- C1 counterexample: the GDPR operations are ingestion-class (they
require the project token) yet perform no token check — invoked on a
client whose credentials contain no project token,
`createDataRetrieval` does not fail with a "token required" error but
issues one HTTP call, interpolating the literal text `undefined` as the
token query parameter. -/
theorem C1_counterexample_gdpr_no_token_check :
    createDataRetrieval ⟨"svc", "shh", "123", none, false⟩ ["u1"] none none =
      { url := APP_API_URL ++ "/data-retrievals/v3.0?token=undefined"
        method := "POST"
        headers := [("Authorization", "Basic c3ZjOnNoaA=="),
          ("Content-Type", "application/json"), ("Accept", "application/json")]
        body := some "\x7b\"distinct_ids\":[\"u1\"]\x7d" } := by
  rfl

/-- C1 (amended): with no project token, event tracking, profile/group
mutation, and identity linking fail fast with a descriptive
"token required" error and perform zero HTTP calls, but the GDPR
operations perform no token check and issue their HTTP call with the
literal text `undefined` as the token query parameter. -/
theorem C1_token_fail_fast (c : TenantCredentials) (h : c.projectToken = none) :
    (∀ p now, trackEvent c p now = .error (.api tokenRequiredTrackingMsg none)) ∧
    (∀ evs now, trackEvents c evs now = .error (.api tokenRequiredTrackingMsg none)) ∧
    (∀ evs, importEvents c evs = .error (.api tokenRequiredImportMsg none)) ∧
    (∀ op d j, engageRequest c op d j = .error (.api tokenRequiredProfileMsg none)) ∧
    (∀ d, deleteProfile c d = .error (.api tokenRequiredProfileMsg none)) ∧
    (∀ op gk gi j, groupRequest c op gk gi j = .error (.api tokenRequiredGroupMsg none)) ∧
    (∀ gk gi, deleteGroup c gk gi = .error (.api tokenRequiredGroupMsg none)) ∧
    (∀ d a, createIdentity c d a = .error (.api tokenRequiredIdentityMsg none)) ∧
    (∀ d a, createAlias c d a = .error (.api tokenRequiredAliasMsg none)) ∧
    (∀ d1 d2, mergeIdentities c d1 d2 = .error (.api tokenRequiredMergeMsg none)) ∧
    (∀ ids dt em, (createDataRetrieval c ids dt em).url =
      getAppApiUrl c ++ "/data-retrievals/v3.0?token=undefined") ∧
    (∀ ids, (createDataDeletion c ids).url =
      getAppApiUrl c ++ "/data-deletions/v3.0?token=undefined") := by
  have hjs : jsOrUndefined c.projectToken = none := by rw [h]; rfl
  refine ⟨?_, ?_, ?_, ?_, ?_, ?_, ?_, ?_, ?_, ?_, ?_, ?_⟩
  · intro p now; simp [trackEvent, hjs]
  · intro evs now; simp [trackEvents, hjs]
  · intro evs; simp [importEvents, hjs]
  · intro op d j; simp [engageRequest, hjs]
  · intro d; simp [deleteProfile, hjs]
  · intro op gk gi j; simp [groupRequest, hjs]
  · intro gk gi; simp [deleteGroup, hjs]
  · intro d a; simp [createIdentity, hjs]
  · intro d a; simp [createAlias, hjs]
  · intro d1 d2; simp [mergeIdentities, hjs]
  · intro ids dt em; simp [createDataRetrieval, buildRequest, jsTemplate, h]
  · intro ids; simp [createDataDeletion, buildRequest, jsTemplate, h]

/-- Witness for C1 (amended) on a concrete token-less credential set. -/
theorem C1_token_fail_fast_witness :
    trackEvent ⟨"svc", "shh", "123", none, false⟩
        ⟨"Signup", "u1", [], none⟩ 1700000000 =
      .error (.api tokenRequiredTrackingMsg none) :=
  (C1_token_fail_fast ⟨"svc", "shh", "123", none, false⟩ rfl).1
    ⟨"Signup", "u1", [], none⟩ 1700000000

/-- C10: `createOrReplaceLookupTable` on an empty data array fails with
"Lookup table data cannot be empty" without building a request
(zero HTTP calls); for non-empty data the emitted CSV is unchanged when
a key absent from the first row is removed from every row (keys
appearing only after the first row are silently dropped), and `null`
(or absent) values serialize as the empty string — concretely the key
`b` of the second row is dropped, and a `null` cell yields an empty
CSV field. -/
theorem C10_lookup_table_edge_cases :
    (∀ c name, createOrReplaceLookupTable c name [] =
      .error (.api lookupTableEmptyMsg none)) ∧
    (∀ (k : String) (data : List Row), data ≠ [] → k ∉ csvHeaderKeys data →
      lookupTableCsv (data.map (eraseKey k)) = lookupTableCsv data) ∧
    lookupTableCsv [[("a", .num 1)], [("a", .num 2), ("b", .num 3)]] = "a\n1\n2" ∧
    lookupTableCsv [[("a", .nul), ("b", .str "x")]] = "a,b\n,x" := by
  refine ⟨fun c name => rfl, ?_, rfl, rfl⟩
  intro k data hne hk
  obtain ⟨r, rest, rfl⟩ : ∃ r rest, data = r :: rest := by
    cases data with
    | nil => exact absurd rfl hne
    | cons r rest => exact ⟨r, rest, rfl⟩
  have hkeys : csvHeaderKeys ((r :: rest).map (eraseKey k)) = csvHeaderKeys (r :: rest) := by
    simp only [csvHeaderKeys, List.map_cons, List.headD_cons]
    congr 1
    exact eraseKey_of_not_mem k r (by simpa [csvHeaderKeys] using hk)
  simp only [lookupTableCsv, hkeys]
  congr 1
  rw [List.map_map]
  congr 1
  exact List.map_congr_left fun row _ =>
    csvLine_eraseKey (csvHeaderKeys (r :: rest)) k row (by simpa [csvHeaderKeys] using hk)

/-- Witness for C10 at a concrete one-row table. -/
theorem C10_lookup_table_edge_cases_witness :
    lookupTableCsv ([[("a", JsValue.num 1), ("b", JsValue.num 2)]].map (eraseKey "c")) =
      lookupTableCsv [[("a", JsValue.num 1), ("b", JsValue.num 2)]] :=
  C10_lookup_table_edge_cases.2.1 "c" [[("a", JsValue.num 1), ("b", JsValue.num 2)]]
    (by decide) (by decide)

/-- C5 counterexample: with username *and* project id both missing, the
first validation check fires and the resulting error names the two
service-account headers but not `X-Mixpanel-Project-Id`, so the error
does not name all missing fields. -/
theorem C5_counterexample_missing_fields_not_all_named :
    validateCredentials ⟨"", "s", "", none, false⟩ = .error missingCredentialsMsg ∧
    containsSubstr missingCredentialsMsg "X-Mixpanel-Project-Id" = false := by
  exact ⟨rfl, by decide⟩

/-- C5 (amended): resolution of a credential set missing username,
secret, or projectId fails (purely, before any request is built); a
missing username or secret yields the message naming both
service-account headers, and a missing project id (with username and
secret present) yields the message naming the project-id header —
when a service-account field and the project id are missing at once,
only the service-account headers are named. -/
theorem C5_missing_credentials_fail_fast (c : TenantCredentials) :
    (c.username = "" ∨ c.secret = "" →
      validateCredentials c = .error missingCredentialsMsg) ∧
    (c.username ≠ "" → c.secret ≠ "" → c.projectId = "" →
      validateCredentials c = .error missingProjectIdMsg) ∧
    (validateCredentials c = .ok () ↔
      c.username ≠ "" ∧ c.secret ≠ "" ∧ c.projectId ≠ "") ∧
    containsSubstr missingCredentialsMsg "X-Mixpanel-Service-Account-Username" = true ∧
    containsSubstr missingCredentialsMsg "X-Mixpanel-Service-Account-Secret" = true ∧
    containsSubstr missingProjectIdMsg "X-Mixpanel-Project-Id" = true := by
  refine ⟨?_, ?_, ?_, by decide, by decide, by decide⟩
  · intro h
    simp [validateCredentials, h]
  · intro hu hs hp
    simp [validateCredentials, hu, hs, hp]
  · constructor
    · intro h
      by_cases h1 : c.username = "" ∨ c.secret = ""
      · unfold validateCredentials at h
        rw [if_pos h1] at h
        exact absurd h (by simp)
      · by_cases h2 : c.projectId = ""
        · unfold validateCredentials at h
          rw [if_neg h1, if_pos h2] at h
          exact absurd h (by simp)
        · push_neg at h1
          exact ⟨h1.1, h1.2, h2⟩
    · intro ⟨hu, hs, hp⟩
      simp [validateCredentials, hu, hs, hp]

/-- Witness for C5 (amended) on a credential set missing only the
project id. -/
theorem C5_missing_credentials_fail_fast_witness :
    validateCredentials ⟨"svc", "shh", "", none, false⟩ = .error missingProjectIdMsg :=
  (C5_missing_credentials_fail_fast ⟨"svc", "shh", "", none, false⟩).2.1
    (by decide) (by decide) rfl

/-- C3 counterexample: on a 429 response whose `Retry-After` header is
present and numeric (`"5"`), the ingestion-path error carries 60, not
the header value; and on the query path a present but non-numeric
header (`"soon"`) yields `parseInt`'s `NaN` (modelled `none`), not
60. -/
theorem C3_counterexample_retry_after :
    requestIngestionHandleResponse
        ⟨429, (fun n => if n = "Retry-After" then some "5" else none), ""⟩ =
      .error (.rateLimit "Rate limit exceeded" (some 60)) ∧
    MixpanelError.rateLimit "Rate limit exceeded" (some 60) ≠
      .rateLimit "Rate limit exceeded" (some 5) ∧
    requestHandleResponse
        ⟨429, (fun n => if n = "Retry-After" then some "soon" else none), ""⟩ =
      .error (.rateLimit "Rate limit exceeded" none) := by
  exact ⟨rfl, by decide, rfl⟩

/-- C3 (amended): on a 429 response, the query-surface `request` path
carries `parseInt` of the `Retry-After` header when the header is
present and non-empty (hence its integer value when numeric and `NaN`
when not), and 60 when the header is absent or empty; the
`requestIngestion` path always carries 60 regardless of the header. -/
theorem C3_rate_limit_retry_after (r : HttpResponse) (h : r.status = 429) :
    (r.headers "Retry-After" = none →
      requestHandleResponse r = .error (.rateLimit "Rate limit exceeded" (some 60))) ∧
    (∀ s, r.headers "Retry-After" = some s →
      requestHandleResponse r = .error (.rateLimit "Rate limit exceeded"
        (if s = "" then some 60 else jsParseInt s))) ∧
    requestIngestionHandleResponse r =
      .error (.rateLimit "Rate limit exceeded" (some 60)) := by
  refine ⟨?_, ?_, ?_⟩
  · intro hh
    simp [requestHandleResponse, h, retryAfterOfHeader, hh]
  · intro s hh
    simp [requestHandleResponse, h, retryAfterOfHeader, hh]
  · simp [requestIngestionHandleResponse, h]

/-- Witness for C3 (amended) on a 429 response carrying
`Retry-After: 7`. -/
theorem C3_rate_limit_retry_after_witness :
    requestHandleResponse
        ⟨429, (fun n => if n = "Retry-After" then some "7" else none), ""⟩ =
      .error (.rateLimit "Rate limit exceeded"
        (if "7" = "" then some 60 else jsParseInt "7")) :=
  (C3_rate_limit_retry_after
    ⟨429, (fun n => if n = "Retry-After" then some "7" else none), ""⟩ rfl).2.1
    "7" rfl

/-- C4 counterexample: a 500 response to `trackEvent` is converted into
the success-shaped result `{status: 0}` (no error, no status code, no
body text), and a 401 response on the `requestIngestion` path yields a
generic API error rather than an authentication-failure error. -/
theorem C4_counterexample_non_2xx_swallowed :
    ingestOkStatus ⟨500, (fun _ => none), "oops"⟩ = 0 ∧
    requestIngestionHandleResponse ⟨401, (fun _ => none), "denied"⟩ =
      .error (.api "Ingestion API error: 401 - denied" (some 401)) ∧
    MixpanelError.api "Ingestion API error: 401 - denied" (some 401) ≠
      .authentication "Invalid credentials" := by
  exact ⟨rfl, rfl, by decide⟩

/-- C4 (amended): on the `request` path 401/403 yields the
authentication-failure error and any other non-2xx except 429 yields a
generic API error carrying the status code and body text, while 2xx
yields the body; but on the `requestIngestion` path every non-2xx
except 429 (including 401/403) yields a generic API error, and the
direct-`fetch` ingestion operations map any non-2xx response to the
success-shaped `{status: 0}`. -/
theorem C4_response_error_classification (r : HttpResponse) :
    (r.status = 401 ∨ r.status = 403 →
      requestHandleResponse r = .error (.authentication "Invalid credentials")) ∧
    (responseOk r = false → r.status ≠ 429 → r.status ≠ 401 → r.status ≠ 403 →
      requestHandleResponse r =
        .error (.api ("API error: " ++ toString r.status ++ " - " ++ r.bodyText)
          (some r.status))) ∧
    (responseOk r = true → requestHandleResponse r = .ok r.bodyText) ∧
    (responseOk r = false → r.status ≠ 429 →
      requestIngestionHandleResponse r =
        .error (.api ("Ingestion API error: " ++ toString r.status ++ " - " ++ r.bodyText)
          (some r.status))) ∧
    (responseOk r = false → ingestOkStatus r = 0) := by
  refine ⟨?_, ?_, ?_, ?_, ?_⟩
  · rintro (h | h) <;> simp [requestHandleResponse, h]
  · intro hok h429 h401 h403
    simp [requestHandleResponse, h429, h401, h403, hok]
  · intro hok
    have hst : 200 ≤ r.status ∧ r.status ≤ 299 := by
      simpa [responseOk] using hok
    have h429 : r.status ≠ 429 := by omega
    have h401 : r.status ≠ 401 := by omega
    have h403 : r.status ≠ 403 := by omega
    simp [requestHandleResponse, h429, h401, h403, hok]
  · intro hok h429
    simp [requestIngestionHandleResponse, h429, hok]
  · intro hok
    simp [ingestOkStatus, hok]

/-- Witness for C4 (amended) on a 500 response. -/
theorem C4_response_error_classification_witness :
    requestHandleResponse ⟨500, (fun _ => none), "boom"⟩ =
      .error (.api ("API error: " ++ toString (500 : Nat) ++ " - " ++ "boom")
        (some 500)) :=
  (C4_response_error_classification ⟨500, (fun _ => none), "boom"⟩).2.1
    (by decide) (by decide) (by decide) (by decide)

/-- Lowering a list equals a lowercase-fixed target iff the lists agree
up to ASCII case. -/
theorem map_lower_eq_iff_forall2 (l m : List Char)
    (hm : ∀ c ∈ m, jsCharLower c = c) :
    l.map jsCharLower = m ↔ List.Forall₂ charCaseEq l m := by
  induction l generalizing m with
  | nil =>
    cases m <;> simp
  | cons a as ih =>
    cases m with
    | nil => simp
    | cons b bs =>
      have hb : jsCharLower b = b := hm b (by simp)
      have hbs : ∀ c ∈ bs, jsCharLower c = c := fun c hc => hm c (by simp [hc])
      simp only [List.map_cons, List.cons.injEq, List.forall₂_cons,
        charCaseEq, hb, ih bs hbs]

/-- C9: an `X-Mixpanel` header present with an empty value parses
exactly like an absent header (for all five headers); absent mandatory
headers coerce to the empty string and an empty project token to
`undefined`; `validateCredentials` rejects empty strings, so after
successful validation the username, secret, and project id are
non-empty. -/
theorem C9_empty_header_equals_absent :
    (∀ (h : HeaderMap) (name : String),
      name ∈ ["X-Mixpanel-Service-Account-Username",
        "X-Mixpanel-Service-Account-Secret", "X-Mixpanel-Project-Id",
        "X-Mixpanel-Project-Token", "X-Mixpanel-EU-Resident"] →
      parseTenantCredentials (h.override name (some "")) =
        parseTenantCredentials (h.override name none)) ∧
    (∀ h : HeaderMap, h "X-Mixpanel-Service-Account-Username" = none →
      (parseTenantCredentials h).username = "") ∧
    (∀ h : HeaderMap, h "X-Mixpanel-Project-Token" = some "" →
      (parseTenantCredentials h).projectToken = none) ∧
    (∀ c, validateCredentials c = .ok () →
      c.username ≠ "" ∧ c.secret ≠ "" ∧ c.projectId ≠ "") := by
  refine ⟨?_, ?_, ?_, ?_⟩
  · intro h name hmem
    simp only [List.mem_cons, List.mem_singleton, List.not_mem_nil, or_false] at hmem
    rcases hmem with rfl | rfl | rfl | rfl | rfl <;> rfl
  · intro h hh
    simp [parseTenantCredentials, hh, jsOrEmpty]
  · intro h hh
    simp [parseTenantCredentials, hh, jsOrUndefined]
  · intro c h
    by_cases h1 : c.username = "" ∨ c.secret = ""
    · unfold validateCredentials at h
      rw [if_pos h1] at h
      exact absurd h (by simp)
    · by_cases h2 : c.projectId = ""
      · unfold validateCredentials at h
        rw [if_neg h1, if_pos h2] at h
        exact absurd h (by simp)
      · push_neg at h1
        exact ⟨h1.1, h1.2, h2⟩

/-- Witness for C9: an empty project-token header on an otherwise empty
header map parses like an absent one. -/
theorem C9_empty_header_equals_absent_witness :
    parseTenantCredentials
        (HeaderMap.override (fun _ => none) "X-Mixpanel-Project-Token" (some "")) =
      parseTenantCredentials
        (HeaderMap.override (fun _ => none) "X-Mixpanel-Project-Token" none) :=
  C9_empty_header_equals_absent.1 (fun _ => none) "X-Mixpanel-Project-Token"
    (by simp)

/-- C2: the `euResident` flag is false when the EU-residency header is
absent, and true exactly when the header value equals `"true"` up to
ASCII case; and every constructed request's URL begins with the EU
variant of its surface's base URL when the flag is set and the standard
variant otherwise, across the four surfaces (query via `queryInsights`,
data export via `exportEvents`, ingestion via `listLookupTables`,
app/management via `listAnnotations`). -/
theorem C2_eu_residency_selects_base_urls :
    (∀ h : HeaderMap, h "X-Mixpanel-EU-Resident" = none →
      (parseTenantCredentials h).euResident = false) ∧
    (∀ (h : HeaderMap) (v : String), h "X-Mixpanel-EU-Resident" = some v →
      ((parseTenantCredentials h).euResident = true ↔
        List.Forall₂ charCaseEq v.toList "true".toList)) ∧
    (∀ c p, ∃ rest, (queryInsights c p).url =
      (if c.euResident then EU_MIXPANEL_API_URL else MIXPANEL_API_URL) ++ rest) ∧
    (∀ c p, ∃ rest, (exportEvents c p).url =
      (if c.euResident then EU_DATA_API_URL else DATA_API_URL) ++ rest) ∧
    (∀ c, ∃ rest, (listLookupTables c).url =
      (if c.euResident then EU_INGESTION_API_URL else INGESTION_API_URL) ++ rest) ∧
    (∀ c f t, ∃ rest, (listAnnotations c f t).url =
      (if c.euResident then EU_APP_API_URL else APP_API_URL) ++ rest) := by
  refine ⟨?_, ?_, ?_, ?_, ?_, ?_⟩
  · intro h hh
    simp [parseTenantCredentials, hh]
  · intro h v hh
    have : (parseTenantCredentials h).euResident =
        decide (jsToLowerCase v = "true") := by
      simp [parseTenantCredentials, hh]
    rw [this, decide_eq_true_eq]
    have hmk : (jsToLowerCase v = "true") ↔ v.toList.map jsCharLower = "true".toList := by
      constructor
      · intro e
        have := congrArg String.toList e
        simpa [jsToLowerCase] using this
      · intro e
        show String.mk (v.toList.map jsCharLower) = "true"
        rw [e]
        rfl
    rw [hmk]
    exact map_lower_eq_iff_forall2 v.toList "true".toList (by decide)
  · intro c p
    exact ⟨"/insights?" ++ searchParamsToString (queryInsightsParamsList c p), rfl⟩
  · intro c p
    refine ⟨"/export?" ++ searchParamsToString (exportEventsParamsList c p), ?_⟩
    simp [exportEvents, getDataApiUrl, String.append_assoc]
  · intro c
    exact ⟨"/lookup_tables?project_id=" ++ c.projectId, rfl⟩
  · intro c f t
    refine ⟨"/projects/" ++ c.projectId ++ "/annotations?" ++
      searchParamsToString (addIfTruthy (addIfTruthy [("project_id", c.projectId)]
        "from_date" f) "to_date" t), rfl⟩

/-- Witness for C2: a header map carrying `X-Mixpanel-EU-Resident:
TRUE` parses to an EU-resident credential set. -/
theorem C2_eu_residency_selects_base_urls_witness :
    (parseTenantCredentials
        (fun n => if n = "X-Mixpanel-EU-Resident" then some "TRUE" else none)).euResident
        = true ↔
      List.Forall₂ charCaseEq "TRUE".toList "true".toList :=
  C2_eu_residency_selects_base_urls.2.1
    (fun n => if n = "X-Mixpanel-EU-Resident" then some "TRUE" else none) "TRUE" rfl

/-! ### CSV round-trip machinery (claim C6) -/

/-- `toList` distributes over string append. -/
theorem stringToList_append (a b : String) : (a ++ b).toList = a.toList ++ b.toList := rfl

/-- Rebuilding a string from its character list. -/
theorem mk_toList (s : String) : String.mk s.toList = s := rfl

theorem csvStep_comma_unq (f : List Char) (rec : List String) (rows : List (List String)) :
    csvStep ⟨.unq, f, rec, rows⟩ ',' = ⟨.unq, [], rec ++ [String.mk f], rows⟩ := rfl

theorem csvStep_newline_unq (f : List Char) (rec : List String) (rows : List (List String)) :
    csvStep ⟨.unq, f, rec, rows⟩ '\n' = ⟨.unq, [], [], rows ++ [rec ++ [String.mk f]]⟩ := rfl

theorem csvStep_comma_qseen (f : List Char) (rec : List String) (rows : List (List String)) :
    csvStep ⟨.qseen, f, rec, rows⟩ ',' = ⟨.unq, [], rec ++ [String.mk f], rows⟩ := rfl

theorem csvStep_newline_qseen (f : List Char) (rec : List String) (rows : List (List String)) :
    csvStep ⟨.qseen, f, rec, rows⟩ '\n' = ⟨.unq, [], [], rows ++ [rec ++ [String.mk f]]⟩ := rfl

theorem csvStep_quote_open (rec : List String) (rows : List (List String)) :
    csvStep ⟨.unq, [], rec, rows⟩ '"' = ⟨.quoted, [], rec, rows⟩ := rfl

theorem csvStep_quote_close (f : List Char) (rec : List String) (rows : List (List String)) :
    csvStep ⟨.quoted, f, rec, rows⟩ '"' = ⟨.qseen, f, rec, rows⟩ := rfl

theorem csvStep_quote_qseen (f : List Char) (rec : List String) (rows : List (List String)) :
    csvStep ⟨.qseen, f, rec, rows⟩ '"' = ⟨.quoted, f ++ ['"'], rec, rows⟩ := rfl

/-- Scanning characters free of separators and quotes only accumulates
them into the current unquoted field. -/
theorem foldl_csvStep_unquoted (l : List Char)
    (hl : ∀ ch ∈ l, ¬ ch = ',' ∧ ¬ ch = '"' ∧ ¬ ch = '\n') :
    ∀ (f : List Char) (rec : List String) (rows : List (List String)),
    List.foldl csvStep ⟨.unq, f, rec, rows⟩ l = ⟨.unq, f ++ l, rec, rows⟩ := by
  induction l with
  | nil => intro f rec rows; simp
  | cons ch cs ih =>
    intro f rec rows
    obtain ⟨h1, h2, h3⟩ := hl ch (by simp)
    have hstep : csvStep ⟨.unq, f, rec, rows⟩ ch = ⟨.unq, f ++ [ch], rec, rows⟩ := by
      simp [csvStep, h1, h2, h3]
    rw [List.foldl_cons, hstep, ih (fun c hc => hl c (by simp [hc])) (f ++ [ch])]
    simp

/-- Scanning doubled quoted content accumulates the original content
into the current quoted field. -/
theorem foldl_csvStep_quoted (l : List Char) :
    ∀ (f : List Char) (rec : List String) (rows : List (List String)),
    List.foldl csvStep ⟨.quoted, f, rec, rows⟩ (doubleQuotes l) = ⟨.quoted, f ++ l, rec, rows⟩ := by
  induction l with
  | nil => intro f rec rows; simp [doubleQuotes]
  | cons c cs ih =>
    intro f rec rows
    by_cases hc : c = '"'
    · subst hc
      show List.foldl csvStep _ ('"' :: '"' :: doubleQuotes cs) = _
      rw [List.foldl_cons, List.foldl_cons, csvStep_quote_close, csvStep_quote_qseen, ih]
      simp
    · have hd : doubleQuotes (c :: cs) = c :: doubleQuotes cs := by
        simp [doubleQuotes, hc]
      have hstep : csvStep ⟨.quoted, f, rec, rows⟩ c = ⟨.quoted, f ++ [c], rec, rows⟩ := by
        simp [csvStep, hc]
      rw [hd, List.foldl_cons, hstep, ih]
      simp

/-- Scanning one escaped cell from a fresh field: the field holds the
original value, in `qseen` mode when the value was quoted and `unq`
mode otherwise. -/
theorem foldl_escapeCsv (v : String) (rec : List String) (rows : List (List String)) :
    List.foldl csvStep ⟨.unq, [], rec, rows⟩ (escapeCsv v).toList =
      if needsQuote v then ⟨.qseen, v.toList, rec, rows⟩
      else ⟨.unq, v.toList, rec, rows⟩ := by
  by_cases hq : needsQuote v = true
  · rw [if_pos hq]
    have he : (escapeCsv v).toList = '"' :: (doubleQuotes v.toList ++ ['"']) := by
      simp [escapeCsv, hq, stringToList_append]
    rw [he, List.foldl_cons, csvStep_quote_open, List.foldl_append, foldl_csvStep_quoted]
    simp [csvStep_quote_close]
  · rw [if_neg hq]
    have he : (escapeCsv v).toList = v.toList := by simp [escapeCsv, hq]
    rw [he]
    have hl : ∀ ch ∈ v.toList, ¬ ch = ',' ∧ ¬ ch = '"' ∧ ¬ ch = '\n' := by
      intro ch hch
      have hnor : ¬ (ch = ',' ∨ ch = '"' ∨ ch = '\n') := by
        intro hor
        exact hq (by
          unfold needsQuote
          exact List.any_eq_true.mpr ⟨ch, hch, by simpa using hor⟩)
      exact ⟨fun e => hnor (Or.inl e), fun e => hnor (Or.inr (Or.inl e)),
        fun e => hnor (Or.inr (Or.inr e))⟩
    simpa using foldl_csvStep_unquoted v.toList hl [] rec rows

theorem emitLine_singleton (v : String) : emitLine [v] = escapeCsv v := rfl

theorem emitLine_cons_cons (v w : String) (ws : List String) :
    emitLine (v :: w :: ws) = escapeCsv v ++ "," ++ emitLine (w :: ws) := rfl

/-- One emitted line followed by a newline appends exactly its cells as
one record. -/
theorem foldl_emitLine_newline (cells : List String) :
    cells ≠ [] → ∀ (rec : List String) (rows : List (List String)),
    List.foldl csvStep ⟨.unq, [], rec, rows⟩ ((emitLine cells).toList ++ ['\n']) =
      ⟨.unq, [], [], rows ++ [rec ++ cells]⟩ := by
  induction cells with
  | nil => intro h; exact absurd rfl h
  | cons v cs ih =>
    intro _ rec rows
    cases cs with
    | nil =>
      rw [emitLine_singleton, List.foldl_append, foldl_escapeCsv]
      by_cases hq : needsQuote v = true
      · rw [if_pos hq]
        simp [csvStep_newline_qseen, mk_toList]
      · rw [if_neg hq]
        simp [csvStep_newline_unq, mk_toList]
    | cons w ws =>
      rw [emitLine_cons_cons]
      have hsplit : (escapeCsv v ++ "," ++ emitLine (w :: ws)).toList ++ ['\n'] =
          (escapeCsv v).toList ++ (',' :: ((emitLine (w :: ws)).toList ++ ['\n'])) := by
        simp [stringToList_append]
      rw [hsplit, List.foldl_append, foldl_escapeCsv]
      by_cases hq : needsQuote v = true
      · rw [if_pos hq, List.foldl_cons, csvStep_comma_qseen, mk_toList,
          ih (by simp) (rec ++ [v]) rows]
        simp
      · rw [if_neg hq, List.foldl_cons, csvStep_comma_unq, mk_toList,
          ih (by simp) (rec ++ [v]) rows]
        simp

/-- Flushing after the final emitted line yields its cells as the last
record, provided the line is not a single empty cell starting an empty
record. -/
theorem foldl_emitLine_finish (cells : List String) :
    cells ≠ [] → ∀ (rec : List String) (rows : List (List String)),
    ¬ (rec = [] ∧ cells = [""]) →
    csvFinish (List.foldl csvStep ⟨.unq, [], rec, rows⟩ (emitLine cells).toList) =
      rows ++ [rec ++ cells] := by
  induction cells with
  | nil => intro h; exact absurd rfl h
  | cons v cs ih =>
    intro _ rec rows hne2
    cases cs with
    | nil =>
      rw [emitLine_singleton, foldl_escapeCsv]
      by_cases hq : needsQuote v = true
      · rw [if_pos hq]
        show csvFinish ⟨.qseen, v.toList, rec, rows⟩ = _
        simp [csvFinish, mk_toList]
      · rw [if_neg hq]
        by_cases hv : v = ""
        · subst hv
          have hrec : rec ≠ [] := fun h => hne2 ⟨h, rfl⟩
          obtain ⟨a, as, rfl⟩ := List.exists_cons_of_ne_nil hrec
          show csvFinish ⟨.unq, "".toList, a :: as, rows⟩ = _
          simp [csvFinish]
        · have hvl : v.toList ≠ [] := fun e => hv (by rw [← mk_toList v, e])
          obtain ⟨c, cs', hcs⟩ := List.exists_cons_of_ne_nil hvl
          show csvFinish ⟨.unq, v.toList, rec, rows⟩ = _
          rw [hcs]
          simp [csvFinish]
          rw [← hcs, mk_toList]
    | cons w ws =>
      rw [emitLine_cons_cons]
      have hsplit : (escapeCsv v ++ "," ++ emitLine (w :: ws)).toList =
          (escapeCsv v).toList ++ (',' :: (emitLine (w :: ws)).toList) := by
        simp [stringToList_append]
      rw [hsplit, List.foldl_append, foldl_escapeCsv]
      by_cases hq : needsQuote v = true
      · rw [if_pos hq, List.foldl_cons, csvStep_comma_qseen, mk_toList,
          ih (by simp) (rec ++ [v]) rows (by simp)]
        simp
      · rw [if_neg hq, List.foldl_cons, csvStep_comma_unq, mk_toList,
          ih (by simp) (rec ++ [v]) rows (by simp)]
        simp

/-- `getLast?` skips the head when the tail is non-empty. -/
theorem getLast?_cons_of_ne_nil {α : Type} (a : α) (l : List α) (h : l ≠ []) :
    (a :: l).getLast? = l.getLast? := by
  obtain ⟨b, bs, rfl⟩ := List.exists_cons_of_ne_nil h
  rw [List.getLast?_cons_cons]

/-- `getLast?` commutes with `map`. -/
theorem getLast?_map_eq {α β : Type} (f : α → β) (l : List α) :
    (l.map f).getLast? = l.getLast?.map f := by
  induction l with
  | nil => rfl
  | cons a as ih =>
    cases as with
    | nil => rfl
    | cons b bs =>
      rw [List.map_cons, List.map_cons, List.getLast?_cons_cons,
        List.getLast?_cons_cons, ← List.map_cons]
      exact ih

/-- Parsing newline-joined emitted lines recovers exactly the emitted
records (the final record must not be a lone empty cell, which the
optional trailing-newline convention would drop). -/
theorem csvParse_join_records (recs : List (List String)) :
    recs ≠ [] → (∀ r ∈ recs, r ≠ []) → recs.getLast? ≠ some [""] →
    ∀ rows, csvFinish (List.foldl csvStep ⟨.unq, [], [], rows⟩
      (joinWith "\n" (recs.map emitLine)).toList) = rows ++ recs := by
  induction recs with
  | nil => intro h; exact absurd rfl h
  | cons r rs ih =>
    intro _ hne hlast rows
    cases rs with
    | nil =>
      show csvFinish (List.foldl csvStep _ (emitLine r).toList) = _
      exact foldl_emitLine_finish r (hne r (by simp)) [] rows
        (fun h => hlast (by simp [h.2]))
    | cons s ss =>
      have hj : (joinWith "\n" ((r :: s :: ss).map emitLine)).toList =
          ((emitLine r).toList ++ ['\n']) ++
            (joinWith "\n" ((s :: ss).map emitLine)).toList := by
        show (emitLine r ++ "\n" ++ joinWith "\n" ((s :: ss).map emitLine)).toList = _
        simp [stringToList_append]
      rw [hj, List.foldl_append, foldl_emitLine_newline r (hne r (by simp)) [] rows]
      simp only [List.nil_append]
      rw [ih (by simp) (fun x hx => hne x (by simp [hx]))
        (by rwa [List.getLast?_cons_cons] at hlast) (rows ++ [r])]
      simp

/-- A value the serializer leaves unquoted is emitted verbatim. -/
theorem escapeCsv_of_safe (k : String) (h : needsQuote k = false) : escapeCsv k = k := by
  simp [escapeCsv, h]

/-- A serialized data line is the emitted line of its cell texts. -/
theorem emitLine_cells_eq_csvLine (keys : List String) (row : Row) :
    emitLine (keys.map (cellValue row)) = csvLine keys row := by
  unfold emitLine csvLine
  rw [List.map_map]
  rfl

/-- C6 counterexample: two non-empty row lists whose emitted CSV does
not re-parse to the serialized values.  With the single row
`{a: ""}` the CSV is `"a\n"` and a standard parser reads one record
(the optional trailing newline), so the serialized empty value is never
recovered; with the single row `{"a: "v"}` (key beginning with a
quote — the header line is emitted unescaped) the parser reads the
whole text as one quoted field `a\nv`, so the value `v` is not
recovered. -/
theorem C6_counterexample_csv_round_trip :
    (lookupTableCsv [[("a", JsValue.str "")]] = "a\n" ∧
      csvParse "a\n" = [["a"]]) ∧
    (lookupTableCsv [[("\"a", JsValue.str "v")]] = "\"a\nv" ∧
      csvParse "\"a\nv" = [["a\nv"]]) := by
  exact ⟨⟨rfl, rfl⟩, ⟨rfl, rfl⟩⟩

/-- C6 (amended): for a non-empty row list whose first-row keys are
non-empty and contain no comma, quote, or newline, and whose final row
does not serialize to an empty line (a lone column with an empty cell),
re-parsing the emitted CSV with a standard CSV parser recovers the
header and every serialized value verbatim: the parse equals the key
list followed by each row's serialized cells. -/
theorem C6_lookup_csv_round_trip (data : List Row) (hne : data ≠ [])
    (hkeys : csvHeaderKeys data ≠ [])
    (hsafe : ∀ k ∈ csvHeaderKeys data, needsQuote k = false)
    (hlast : csvLine (csvHeaderKeys data) (data.getLast hne) ≠ "") :
    csvParse (lookupTableCsv data) =
      csvHeaderKeys data ::
        data.map (fun row => (csvHeaderKeys data).map (cellValue row)) := by
  have hmapesc : (csvHeaderKeys data).map escapeCsv = csvHeaderKeys data := by
    have h1 : (csvHeaderKeys data).map escapeCsv = (csvHeaderKeys data).map id :=
      List.map_congr_left fun k hk => escapeCsv_of_safe k (hsafe k hk)
    rw [h1, List.map_id]
  have hheader : joinWith "," (csvHeaderKeys data) = emitLine (csvHeaderKeys data) := by
    unfold emitLine
    rw [hmapesc]
  have hcsv : lookupTableCsv data =
      joinWith "\n" ((csvHeaderKeys data ::
        data.map (fun row => (csvHeaderKeys data).map (cellValue row))).map emitLine) := by
    unfold lookupTableCsv
    rw [List.map_cons, List.map_map, hheader]
    have hrows : List.map (csvLine (csvHeaderKeys data)) data =
        List.map (emitLine ∘ fun row => List.map (cellValue row) (csvHeaderKeys data)) data :=
      List.map_congr_left fun row _ =>
        (emitLine_cells_eq_csvLine (csvHeaderKeys data) row).symm
    rw [hrows]
  have hall : ∀ r ∈ (csvHeaderKeys data ::
      data.map fun row => (csvHeaderKeys data).map (cellValue row)), r ≠ [] := by
    intro r hr
    rcases List.mem_cons.mp hr with rfl | hmem
    · exact hkeys
    · obtain ⟨row, -, rfl⟩ := List.mem_map.mp hmem
      intro e
      exact hkeys (by simpa using e)
  have hlast2 : (csvHeaderKeys data ::
      data.map fun row => (csvHeaderKeys data).map (cellValue row)).getLast? ≠ some [""] := by
    intro hcon
    rw [getLast?_cons_of_ne_nil _ _ (by simpa using hne), getLast?_map_eq,
      List.getLast?_eq_getLast_of_ne_nil hne] at hcon
    simp only [Option.map_some'] at hcon
    have hcon2 : List.map (cellValue (data.getLast hne)) (csvHeaderKeys data) = [""] :=
      Option.some.inj hcon
    apply hlast
    rw [← emitLine_cells_eq_csvLine, hcon2]
    rfl
  rw [hcsv]
  have hmain := csvParse_join_records
    (csvHeaderKeys data :: data.map fun row => (csvHeaderKeys data).map (cellValue row))
    (by simp) hall hlast2 []
  simpa [csvParse, csvInit] using hmain

/-- Witness for C6 (amended) on a two-row table exercising comma,
quote, and newline escaping. -/
theorem C6_lookup_csv_round_trip_witness :
    csvParse (lookupTableCsv
        [[("a", JsValue.str "x,y"), ("b", JsValue.str "q\"uo\nte")],
         [("a", JsValue.str ""), ("b", JsValue.str "z")]]) =
      csvHeaderKeys
          [[("a", JsValue.str "x,y"), ("b", JsValue.str "q\"uo\nte")],
           [("a", JsValue.str ""), ("b", JsValue.str "z")]] ::
        List.map (fun row =>
            (csvHeaderKeys
              [[("a", JsValue.str "x,y"), ("b", JsValue.str "q\"uo\nte")],
               [("a", JsValue.str ""), ("b", JsValue.str "z")]]).map (cellValue row))
          [[("a", JsValue.str "x,y"), ("b", JsValue.str "q\"uo\nte")],
           [("a", JsValue.str ""), ("b", JsValue.str "z")]] :=
  C6_lookup_csv_round_trip
    [[("a", JsValue.str "x,y"), ("b", JsValue.str "q\"uo\nte")],
     [("a", JsValue.str ""), ("b", JsValue.str "z")]]
    (by decide) (by decide) (by decide) (by decide)

end Mixpanel
